import Mathlib

/-!
Verification of the anomaly-scoring engine in
`skills/betting-analytics/scripts/anomaly_detector.py`.

Modelling conventions (shallow embedding):
* Floating-point numbers are idealized as exact rationals (`ℚ`).
* A pandas cell is `Option ℚ`; `none` stands for a missing value (NaN).
  Float NaN produced by arithmetic is likewise modelled as `none` where it
  can arise, and operations that pandas performs with `skipna=True`
  (mean, std, quantile, dropna) act on the present values only.
* `x / 0 = 0` is the ambient ℚ convention; every place where the source
  can actually divide by zero is either guarded in the source itself or
  noted in the relevant doc comment.
* The square root used by `std` is `ratSqrt`, exact whenever the radicand
  is a square of a rational; all concrete inputs in this file are chosen
  so that every square root that matters is rational.
* Fallible Python code (raising exceptions) is embedded in
  `Except String`; the string is the exception rendered as text.
-/

/-- Square root on ℚ used to model the float `sqrt` inside `pandas.Series.std`:
exact whenever the argument is the square of a rational (numerator and
denominator of the reduced fraction are both perfect squares), an
integer under-approximation otherwise; nonnegative arguments map to
nonnegative results and `0` is returned exactly for `0`. -/
def ratSqrt (q : ℚ) : ℚ :=
  if q ≤ 0 then 0 else (Nat.sqrt q.num.toNat : ℚ) / (Nat.sqrt q.den : ℚ)

theorem ratSqrt_nonneg (q : ℚ) : 0 ≤ ratSqrt q := by
  unfold ratSqrt
  split
  · exact le_refl 0
  · positivity

theorem ratSqrt_eq_zero_iff {q : ℚ} (hq : 0 ≤ q) : ratSqrt q = 0 ↔ q = 0 := by
  unfold ratSqrt
  rcases lt_or_eq_of_le hq with h | h
  · rw [if_neg (not_le.mpr h)]
    constructor
    · intro hz
      exfalso
      have hnum : 0 < q.num := Rat.num_pos.mpr h
      have h1 : 0 < Nat.sqrt q.num.toNat := by
        rw [Nat.sqrt_pos]
        omega
      have h2 : 0 < Nat.sqrt q.den := by
        rw [Nat.sqrt_pos]
        exact q.den_pos
      have : (0 : ℚ) < (Nat.sqrt q.num.toNat : ℚ) / (Nat.sqrt q.den : ℚ) := by
        apply div_pos <;> exact_mod_cast by omega
      exact absurd hz (ne_of_gt this)
    · intro hz; exact absurd hz (ne_of_gt h)
  · subst h; simp

theorem ratSqrt_zero : ratSqrt 0 = 0 := by
  unfold ratSqrt
  norm_num

theorem ratSqrt_one : ratSqrt 1 = 1 := by
  unfold ratSqrt
  norm_num [Rat.num_ofNat, Rat.den_ofNat]

/-- Value of `pandas.Series.mean()` over the present values of a series
(`skipna=True` is the pandas default): sum divided by count.  pandas
yields NaN on an empty series; this total version is used where the input
is known nonempty — the rolling windows always contain their own output
position, for any positive window size (pandas rejects `window=0`
outright) — and as the spec-side μ; `seriesMeanOpt` models the NaN case
for the z-score detector. -/
def seriesMean (vals : List ℚ) : ℚ := vals.sum / (vals.length : ℚ)

/-- `pandas.Series.mean()` with its NaN case: NaN (`none`) on an empty
series, the mean otherwise. -/
def seriesMeanOpt (vals : List ℚ) : Option ℚ :=
  if vals.isEmpty then none else some (seriesMean vals)

/-- Value of the sample standard deviation (`ddof=1`),
`sqrt(Σ (x-μ)² / (n-1))`.  This is what `pandas.Series.std()` returns for
a series with at least two values; for fewer pandas yields NaN, which the
callers model explicitly (`seriesStdOpt` for the z-score detector,
`rollingStdAt` for the rolling windows).  It also serves as the
spec-side total σ, where the degenerate `n ≤ 1` case lands on `0`
(a constant feature) by the ℚ `/0` convention. -/
def sampleStd (vals : List ℚ) : ℚ :=
  ratSqrt ((vals.map (fun x => (x - seriesMean vals) ^ 2)).sum / ((vals.length : ℚ) - 1))

/-- `pandas.Series.std()` (`ddof=1`) with its NaN case: NaN (`none`) for
fewer than two values, the sample standard deviation otherwise. -/
def seriesStdOpt (vals : List ℚ) : Option ℚ :=
  if vals.length ≤ 1 then none else some (sampleStd vals)

/-- Pairs `(original index, value)` of the present cells of a column:
`pandas.Series.dropna()` keeping the original index labels. -/
def dropna (col : List (Option ℚ)) : List (ℕ × ℚ) :=
  col.enum.filterMap (fun p => p.2.map (fun x => (p.1, x)))

/-- Source function `detect_zscore_anomalies(series, threshold=3.0)`
(lines 35–56): μ and σ over the present values, NaN (`none`) where pandas
yields NaN — in particular `σ = NaN` for fewer than two present values.
The guard `if std == 0` is False when `std` is NaN, so only a genuine
`σ = 0` returns the all-zero series (`pd.Series(0, index=series.index)`,
every record of the index, present or not); otherwise each score is
`min(|(x-μ)/σ| / threshold, 1)`, with NaN propagating: a missing value, a
NaN mean or a NaN standard deviation makes the score NaN (`none`) — also
for perfectly present records. -/
def detect_zscore_anomalies (series : List (Option ℚ)) (threshold : ℚ := 3) :
    List (Option ℚ) :=
  let vals := (dropna series).map Prod.snd
  let mean := seriesMeanOpt vals
  let std := seriesStdOpt vals
  if std = some 0 then series.map (fun _ => some 0)
  else series.map (fun v =>
    v.bind (fun x => mean.bind (fun m => std.map (fun sd =>
      min (|(x - m) / sd| / threshold) 1))))

/-- Modelled from the spec's words for the Pointwise-Statistical detector
(§4.1): for each record with value `x`, `score = min((|x − μ| / σ) / T, 1)`
with μ, σ the mean and standard deviation over all present values; if
`σ = 0` (constant feature) the score is `0` for every record. -/
def specPointwiseStatistical (series : List (Option ℚ)) (T : ℚ) :
    List (Option ℚ) :=
  let vals := (dropna series).map Prod.snd
  let mean := seriesMean vals
  let std := sampleStd vals
  if std = 0 then series.map (fun _ => some 0)
  else series.map (fun v => v.map (fun x => min (|x - mean| / std / T) 1))

/-- C5 counterexample: the claim promises, for every numeric series, the
formula `min((|x − μ| / σ) / T, 1)` with score 0 for every record when
all values are identical.  On a series with a single present value —
reachable unguarded through `analyze_anomalies` with `method='zscore'`,
which passes the raw primary column — pandas' sample standard deviation
is NaN, the `std == 0` guard is False, and the detector returns NaN for
the (present) record where the claim's formula promises `0`. -/
theorem C5_counterexample :
    detect_zscore_anomalies [some 5] 3 = [none]
    ∧ specPointwiseStatistical [some 5] 3 = [some 0]
    ∧ (none : Option ℚ) ≠ some 0 := by
  refine ⟨rfl, ?_, by simp⟩
  norm_num [specPointwiseStatistical, dropna, List.enum, List.enumFrom,
    List.filterMap_cons, List.filterMap_nil, seriesMean, sampleStd,
    ratSqrt_zero]

/-- C5 (amended): for every numeric series with at least two present
values the Pointwise-Statistical (z-score) detector returns, for each
record with value x, `min((|x − μ| / σ) / T, 1)` with μ, σ over all
present values, and score 0 for every record when σ = 0; with fewer than
two present values σ is NaN and every score is NaN instead. -/
theorem C5_zscore_matches_spec (series : List (Option ℚ)) (T : ℚ)
    (h : 2 ≤ (dropna series).length) :
    detect_zscore_anomalies series T = specPointwiseStatistical series T := by
  unfold detect_zscore_anomalies specPointwiseStatistical
  dsimp only
  have hlen : ¬(((dropna series).map Prod.snd).length ≤ 1) := by
    rw [List.length_map]
    omega
  have hne : ¬(((dropna series).map Prod.snd).isEmpty = true) := by
    rw [List.isEmpty_iff]
    intro h0
    rw [h0] at hlen
    simp at hlen
  rw [show seriesStdOpt ((dropna series).map Prod.snd)
      = some (sampleStd ((dropna series).map Prod.snd)) from by
    unfold seriesStdOpt
    rw [if_neg hlen]]
  rw [show seriesMeanOpt ((dropna series).map Prod.snd)
      = some (seriesMean ((dropna series).map Prod.snd)) from by
    unfold seriesMeanOpt
    rw [if_neg hne]]
  by_cases h0 : sampleStd ((dropna series).map Prod.snd) = 0
  · rw [h0, if_pos rfl, if_pos rfl]
  · have hpos : 0 < sampleStd ((dropna series).map Prod.snd) :=
      lt_of_le_of_ne (ratSqrt_nonneg _) (Ne.symm h0)
    rw [if_neg (by simpa using h0), if_neg h0]
    apply List.map_congr_left
    intro v _
    cases v with
    | none => rfl
    | some x =>
      simp only [Option.some_bind, Option.map_some', Option.bind_some]
      rw [abs_div, abs_of_pos hpos]

theorem C5_witness :
    2 ≤ (dropna [some (0:ℚ), some 0]).length
    ∧ detect_zscore_anomalies [some (0:ℚ), some 0] 3
        = specPointwiseStatistical [some (0:ℚ), some 0] 3 :=
  ⟨by decide, C5_zscore_matches_spec [some 0, some 0] 3 (by decide)⟩

/-- `pandas.Series.quantile(q)` with the default linear interpolation over
the present values: with the values sorted ascending and
`pos = (n-1)·q`, the result interpolates between the entries at
`⌊pos⌋` and `⌊pos⌋+1`.  pandas yields NaN on an empty series, where this
total version returns `0`; that divergence is unobservable here, because
every quantile feeds `detect_iqr_anomalies`, which raises unconditionally
two lines later regardless of the quantile values. -/
def quantile (vals : List ℚ) (q : ℚ) : ℚ :=
  let sorted := List.insertionSort (· ≤ ·) vals
  let pos := ((vals.length : ℚ) - 1) * q
  let i := (⌊pos⌋).toNat
  let lo := (sorted[i]?).getD 0
  let hi := (sorted[i + 1]?).getD lo
  lo + (pos - (i : ℚ)) * (hi - lo)

/-- Models the source's `np.maximum(lower_bound - series, series - upper_bound, 0)`
(line 78).  `np.maximum` is a *binary* ufunc: a third positional argument
is its `out` parameter and must be an array, so passing the scalar `0`
makes numpy raise `TypeError` before anything is computed (with a pandas
`Series` input the dispatch through `Series.__array_ufunc__` forwards the
invalid `out` and fails identically).  The two elementwise operands are
received here only to mirror the call shape; numpy rejects the call
without reading them. -/
def npMaximumScalarOut (_a _b : List (Option ℚ)) : Except String (List (Option ℚ)) :=
  Except.error "TypeError: return arrays must be of ArrayType"

/-- Source function `detect_iqr_anomalies(series, k=1.5)` (lines 59–87):
quantiles and bounds are computed, then the distance step invokes
`np.maximum` with the scalar `0` as its `out` argument, which raises
`TypeError` on every input; the code after that point (normalisation by
`k·IQR` and the `range_val` guard) is consequently unreachable but is
embedded as written. -/
def detect_iqr_anomalies (series : List (Option ℚ)) (k : ℚ := 3/2) :
    Except String (List (Option ℚ)) := do
  let vals := (dropna series).map Prod.snd
  let q1 := quantile vals (1/4)
  let q3 := quantile vals (3/4)
  let iqr := q3 - q1
  let lower := q1 - k * iqr
  let upper := q3 + k * iqr
  let distances ← npMaximumScalarOut
      (series.map (fun v => v.map (fun x => lower - x)))
      (series.map (fun v => v.map (fun x => x - upper)))
  let rangeVal := upper - lower
  if 0 < rangeVal then
    pure (distances.map (fun d => d.map (fun x => min (x / (k * iqr)) 1)))
  else
    pure (series.map (fun _ => some 0))

/-- Modelled from the spec's words for the Range-Based (IQR) detector
(§4.1): `lower = Q1 − k·IQR`, `upper = Q3 + k·IQR`; for each value x the
distance is an explicit branch — `max(lower − x, 0)` below the lower
bound, `max(x − upper, 0)` above the upper bound, `0` within bounds —
and `score = min(distance / (k·IQR), 1)`, with every score `0` when
`IQR = 0`. -/
def specRangeBased (vals : List ℚ) (k : ℚ) : List ℚ :=
  let q1 := quantile vals (1/4)
  let q3 := quantile vals (3/4)
  let iqr := q3 - q1
  let lower := q1 - k * iqr
  let upper := q3 + k * iqr
  if iqr = 0 then vals.map (fun _ => 0)
  else
    vals.map (fun x =>
      let distance :=
        if x < lower then max (lower - x) 0
        else if upper < x then max (x - upper) 0
        else 0
      min (distance / (k * iqr)) 1)

/-- C2: the claim says the IQR detector computes the boundary distance as
an explicit branch and returns `min(distance/(k·IQR), 1)` (0 for all
records when IQR = 0).  The code instead crashes: `np.maximum` receives
the scalar `0` as its `out` argument and raises `TypeError` on every
series — here evaluated on ten present values `[0,…,0,100]` with the
default `k = 1.5`, where the spec's branch formula would return all
zeros (Q1 = Q3 = 0, so IQR = 0). -/
theorem C2_iqr_code_raises :
    detect_iqr_anomalies
        (List.replicate 9 (some 0) ++ [some 100]) (3/2)
      = Except.error "TypeError: return arrays must be of ArrayType"
    ∧ specRangeBased (List.replicate 9 (0:ℚ) ++ [100]) (3/2)
      = List.replicate 10 0 := by
  constructor
  · rfl
  · norm_num [specRangeBased, quantile, List.insertionSort, List.orderedInsert,
      List.replicate, -List.getElem?_eq_getElem]
    simp

theorem sampleStd_nonneg (vals : List ℚ) : 0 ≤ sampleStd vals :=
  ratSqrt_nonneg _

theorem sampleStd_of_short (l : List ℚ) (h : l.length ≤ 1) : sampleStd l = 0 := by
  match l with
  | [] => simp [sampleStd, seriesMean, ratSqrt]
  | [x] => simp [sampleStd, seriesMean, ratSqrt]
  | x :: y :: rest => simp at h

/-- Division by a positive rational commutes with taking absolute values. -/
theorem abs_div_of_pos (a d : ℚ) (hd : 0 < d) : |a / d| = |a| / d := by
  rw [abs_div, abs_of_pos hd]

/-- Window positions of `series.rolling(window=w, center=True)` at output
position `i` of an `n`-element series, following pandas'
`FixedWindowIndexer.get_window_bounds`: with `offset = (w-1)/2` (integer
division) the window is `[i+1+offset-w, i+1+offset)`, clipped to `[0, n)`
(ℕ subtraction supplies the lower clip). -/
def rollingWindowIdx (n w i : ℕ) : List ℕ :=
  let offset := (w - 1) / 2
  let stop := min n (i + 1 + offset)
  let start := (i + 1 + offset) - w
  List.range' start (stop - start)

/-- Values of the rolling window at output position `i` (the series is
fully present at this detector's call sites; see
`detect_time_series_anomalies`). -/
def windowVals (s : List ℚ) (w i : ℕ) : List ℚ :=
  (rollingWindowIdx s.length w i).map (fun j => (s[j]?).getD 0)

/-- `rolling(...).mean()` with `min_periods=1`: the mean of whatever part
of the window is in range (never NaN for a nonempty series, since the
window always contains position `i` itself). -/
def rollingMeanAt (s : List ℚ) (w i : ℕ) : ℚ := seriesMean (windowVals s w i)

/-- `rolling(...).std()` with `min_periods=1` and the default `ddof=1`:
NaN (`none`) when the in-range window holds fewer than two values, the
sample standard deviation otherwise. -/
def rollingStdAt (s : List ℚ) (w i : ℕ) : Option ℚ :=
  let win := windowVals s w i
  if win.length ≤ 1 then none else some (sampleStd win)

/-- Source function `detect_time_series_anomalies(series, window=20)`
(lines 142–170): centered rolling mean and standard deviation with
`min_periods=1`, `rolling_std.replace(0, np.nan).fillna(1e-6)` collapsing
both a zero and a NaN standard deviation to the epsilon `1e-6`, then
`min(|residual / std| / 3, 1)`.  The trailing `.fillna(0)` of the source
is the identity here because every call site passes a fully present
(`dropna`'d) series, for which no score is NaN. -/
def detect_time_series_anomalies (s : List ℚ) (window : ℕ := 20) : List ℚ :=
  (List.range s.length).map (fun i =>
    let residual := (s[i]?).getD 0 - rollingMeanAt s window i
    let replaced := (rollingStdAt s window i).bind
      (fun v => if v = 0 then none else some v)
    let std := replaced.getD (1 / 1000000)
    min (|residual / std| / 3) 1)

/-- Modelled from the spec's words for the Temporal-Rolling detector
(§4.1): centered rolling mean and standard deviation over window `W`,
edge records scored from their partial window rather than absent, a small
positive epsilon substituted wherever the rolling standard deviation is
zero (or undefined, for a single-element partial window), and
`score = min(|x − rolling_mean| / rolling_std / T, 1)` with `T = 3`. -/
def specTemporalRolling (s : List ℚ) (W : ℕ) : List ℚ :=
  (List.range s.length).map (fun i =>
    let rm := rollingMeanAt s W i
    let rs := sampleStd (windowVals s W i)
    let rsEff := if rs = 0 then 1 / 1000000 else rs
    min (|(s[i]?).getD 0 - rm| / rsEff / 3) 1)

/-- C6: the Temporal-Rolling detector computes a centered rolling mean and
standard deviation over window `W` (pandas `center=True`,
`min_periods=1`), substitutes the epsilon `1e-6` where the rolling
standard deviation is zero, scores each record
`min(|x − rolling_mean| / rolling_std / 3, 1)`, and scores edge records
from their partial windows instead of marking them absent (the output has
one score per input record). -/
theorem C6_temporal_matches_spec (s : List ℚ) (W : ℕ) :
    detect_time_series_anomalies s W = specTemporalRolling s W := by
  unfold detect_time_series_anomalies specTemporalRolling
  apply List.map_congr_left
  intro i _
  simp only [rollingStdAt]
  by_cases hlen : (windowVals s W i).length ≤ 1
  · have h0 : sampleStd (windowVals s W i) = 0 := sampleStd_of_short _ hlen
    rw [if_pos hlen, h0]
    simp
    rw [abs_mul, abs_of_pos (show (0:ℚ) < 1000000 by norm_num)]
  · rw [if_neg hlen]
    simp only [Option.some_bind]
    by_cases hz : sampleStd (windowVals s W i) = 0
    · rw [hz]
      simp
      rw [abs_mul, abs_of_pos (show (0:ℚ) < 1000000 by norm_num)]
    · have hpos : 0 < sampleStd (windowVals s W i) :=
        lt_of_le_of_ne (sampleStd_nonneg _) (Ne.symm hz)
      rw [if_neg hz, if_neg hz]
      simp only [Option.getD_some]
      rw [abs_div_of_pos _ _ hpos]

/-- One column of `sklearn.preprocessing.StandardScaler.fit_transform`:
center by the column mean and divide by the population standard deviation
(`ddof=0`); sklearn substitutes a scale of `1` for a zero-variance
column (`_handle_zeros_in_scale`). -/
def stdScalerCol (col : List ℚ) : List ℚ :=
  let mean := seriesMean col
  let sigma := ratSqrt ((col.map (fun x => (x - mean) ^ 2)).sum / (col.length : ℚ))
  let scale := if sigma = 0 then 1 else sigma
  col.map (fun x => (x - mean) / scale)

/-- `StandardScaler.fit_transform` over a row-major matrix: each feature
column is standardised independently. -/
def standardScalerFitTransform (rows : List (List ℚ)) : List (List ℚ) :=
  let ncols := (rows.headD []).length
  let colsT := (List.range ncols).map
    (fun j => stdScalerCol (rows.map (fun r => (r[j]?).getD 0)))
  (List.range rows.length).map (fun i => colsT.map (fun tc => (tc[i]?).getD 0))

/-- Rows of `df[numeric_cols].dropna()` (default `how='any'`): the pairs
`(original row index, fully-present feature row)`, keeping only rows in
which every numeric column is present. -/
def fittedRows (cols : List (List (Option ℚ))) (n : ℕ) : List (ℕ × List ℚ) :=
  ((List.range n).map (fun i => (i, cols.map (fun oc => (oc[i]?).getD none)))).filterMap
    (fun p => if p.2.all Option.isSome then some (p.1, p.2.filterMap id) else none)

/-- Models `IsolationForest(...).decision_function` as called by the
source: the source constructs the model (lines 116–121) and calls
`decision_function` (line 124) without ever calling `fit`, so sklearn's
`check_is_fitted` guard raises `NotFittedError` on every input. -/
def unfittedDecisionFunction (_X : List (List ℚ)) : Except String (List ℚ) :=
  Except.error "NotFittedError: This IsolationForest instance is not fitted yet."

/-- Source function `detect_isolation_forest_anomalies(df, ...)`
(lines 90–139), with the external sklearn model abstracted as the
`decision` parameter (the source itself always supplies an unfitted
model, i.e. `unfittedDecisionFunction`): numeric-column check, joint
`dropna`, standardisation (`StandardScaler` raises on an empty sample),
the model's raw separation scores, batch min-max inversion (all zeros
when the raw scores are all equal), and finally
`result = pd.Series(0.0, index=df.index); result.loc[X.index] = scores`,
which assigns the score `0.0` — a present value, not an absence — to
every row excluded from fitting.  `n` is the row count of the caller's
dataframe. -/
def detect_isolation_forest_anomalies (cols : List (List (Option ℚ))) (n : ℕ)
    (decision : List (List ℚ) → Except String (List ℚ)) :
    Except String (List (Option ℚ)) := do
  if cols.isEmpty then
    Except.error "ValueError: No numeric columns found in data"
  else
    let fitted := fittedRows cols n
    let X := fitted.map Prod.snd
    if X.isEmpty then
      Except.error "ValueError: Found array with 0 sample(s)"
    else
      let scaled := standardScalerFitTransform X
      let scores ← decision scaled
      let mn := scores.foldr min (scores.headD 0)
      let mx := scores.foldr max (scores.headD 0)
      let anomaly :=
        if 0 < mx - mn then scores.map (fun sc => 1 - (sc - mn) / (mx - mn))
        else scores.map (fun _ => 0)
      pure ((List.range n).map (fun i =>
        some ((((fitted.map Prod.fst).zip anomaly).lookup i).getD 0)))

/-- A dataframe as the ensemble sees it: `n` records and the numeric
columns in order (the engine's `select_dtypes(include=[np.number])`
projection; a chronological key column is recognised by name through
`isTimeCol`). -/
structure DataFrame where
  n : ℕ
  cols : List (String × List (Option ℚ))

/-- Wellformedness: every column has exactly one cell per record. -/
def DataFrame.wf (df : DataFrame) : Prop := ∀ c ∈ df.cols, c.2.length = df.n

/-- One entry of the ensemble's `scores` dictionary: a method name and a
pandas-indexed score series (pairs of original record index and score). -/
structure ScoreEntry where
  method : String
  scores : List (ℕ × ℚ)

/-- The z-score series the ensemble computes for one column: the detector
runs on the `dropna`'d series — all cells present and, by the caller's
`len < 10` skip, at least ten of them, so μ and σ are not NaN and every
score is present — and the scores keep the original index labels. -/
def zscoreEntryScores (s : List (ℕ × ℚ)) : List (ℕ × ℚ) :=
  (s.map Prod.fst).zip
    ((detect_zscore_anomalies (s.map (fun p => some p.2)) 3).filterMap id)

/-- Per-column loop of `ensemble_anomaly_detection` (lines 202–217):
columns whose `dropna` holds fewer than 10 values are skipped silently;
otherwise a `zscore` entry and an `iqr` entry are collected according to
`methods`.  The `detect_iqr_anomalies` call is not wrapped in any
`try/except`, so its `TypeError` propagates and aborts the whole
ensemble run. -/
def colEntries (cols : List (String × List (Option ℚ))) (methods : List String) :
    Except String (List ScoreEntry) :=
  match cols with
  | [] => Except.ok []
  | c :: rest =>
    let s := dropna c.2
    if s.length < 10 then
      colEntries rest methods
    else
      let zEntries : List ScoreEntry :=
        if "zscore" ∈ methods then [⟨"zscore", zscoreEntryScores s⟩] else []
      match (if "iqr" ∈ methods then
          (detect_iqr_anomalies (s.map (fun p => some p.2)) (3/2)).map
            (fun sc => [ScoreEntry.mk "iqr" ((s.map Prod.fst).zip (sc.filterMap id))])
        else Except.ok ([] : List ScoreEntry)) with
      | Except.error e => Except.error e
      | Except.ok iEntries =>
        match colEntries rest methods with
        | Except.error e => Except.error e
        | Except.ok restEntries => Except.ok (zEntries ++ iEntries ++ restEntries)

/-- Isolation-forest block of the ensemble (lines 219–225): attempted when
the method is selected and numeric columns exist; any exception is caught
(and printed) and the block contributes nothing.  The source always runs
it with the never-fitted model. -/
def ifEntries (df : DataFrame) (methods : List String) : List ScoreEntry :=
  if "isolation_forest" ∈ methods ∧ df.cols ≠ [] then
    match detect_isolation_forest_anomalies (df.cols.map Prod.snd) df.n
        unfittedDecisionFunction with
    | Except.ok v =>
      [⟨"isolation_forest", v.enum.filterMap (fun p => p.2.map (fun x => (p.1, x)))⟩]
    | Except.error _ => []
  else []

def isPrefixChars : List Char → List Char → Bool
  | [], _ => true
  | _ :: _, [] => false
  | p :: ps, c :: cs => p == c && isPrefixChars ps cs

/-- Substring containment on character lists (Python's `in` on strings),
written by structural recursion. -/
def containsChars (pat : List Char) : List Char → Bool
  | [] => pat.isEmpty
  | c :: rest => isPrefixChars pat (c :: rest) || containsChars pat rest

/-- Characters of `name.lower()`. -/
def lowerChars (s : String) : List Char := s.data.map Char.toLower

/-- Column-name test of line 228: the lower-cased name contains `time` or
`date`. -/
def isTimeCol (name : String) : Bool :=
  containsChars "time".data (lowerChars name)
    || containsChars "date".data (lowerChars name)

/-- Sort key order used by `df.sort_values(time_col)`: present values
ascending, missing values last (`na_position='last'`). -/
def timeKeyLe (a b : Option ℚ) : Bool :=
  match a, b with
  | none, none => true
  | none, some _ => false
  | some _, none => true
  | some x, some y => decide (x ≤ y)

/-- Row permutation produced by `df.sort_values(time_col)`, as the list of
original row indices in sorted order.  (pandas' default `quicksort` fixes
no order among ties; this embedding fixes the stable one.  No theorem in
this file depends on the order of tied keys.) -/
def sortPermByKey (key : List (Option ℚ)) (n : ℕ) : List ℕ :=
  (List.insertionSort (fun a b => timeKeyLe a.2 b.2 = true)
    ((List.range n).map (fun i => (i, (key[i]?).getD none)))).map Prod.fst

/-- Time-series block of the ensemble (lines 227–237): if any column name
looks chronological, the frame is sorted by the first such column and the
first three numeric columns with at least 10 present values each get a
`time_series` entry.  The block runs whatever `methods` says (the source
never consults `methods` here).  The scores are stored as a bare ndarray
(`.values`) and later re-indexed against `df.index[:len]` (line 246), so
they attach to the first `len` original indices, not to the sorted
positions — embedded as written.  `tsColEntry` is the body of the
per-column loop (lines 231–237), `tsEntries` the whole block. -/
def tsColEntry (perm : List ℕ) (col : List (Option ℚ)) : Option ScoreEntry :=
  let s := dropna (perm.map (fun i => ((col[i]?).getD none)))
  if 10 ≤ s.length then
    some (ScoreEntry.mk "time_series"
      ((List.range s.length).zip (detect_time_series_anomalies (s.map Prod.snd) 20)))
  else none

def tsEntries (df : DataFrame) : List ScoreEntry :=
  let timeCols := df.cols.filter (fun c => isTimeCol c.1)
  if timeCols ≠ [] ∧ df.cols ≠ [] then
    let key := (timeCols.headD ("", [])).2
    let perm := sortPermByKey key df.n
    (df.cols.take 3).filterMap (fun c => tsColEntry perm c.2)
  else []

/-- Weight applied to a score series of method `m` (line 252):
`weights.get(method, 1.0 / len(methods))`. -/
def methodWeight (weights : List (String × ℚ)) (methods : List String) (m : String) : ℚ :=
  (weights.lookup m).getD (1 / (methods.length : ℚ))

/-- `score_series.reindex(df.index, fill_value=0)` (line 249): one score
per record, records absent from the series scored `0`. -/
def reindexFillZero (n : ℕ) (scores : List (ℕ × ℚ)) : List ℚ :=
  (List.range n).map (fun i => ((scores.lookup i).getD 0))

/-- Combination step of the ensemble (lines 239–267): every collected
score series is re-indexed with `fill_value=0`, the weighted series are
summed, the sum is divided by the total weight of **all** collected
series (not a per-record subset), and the result is clipped to `[0,1]`.
With no collected series the result is all zeros. -/
def combineEntries (n : ℕ) (entries : List ScoreEntry)
    (methods : List String) (weights : List (String × ℚ)) : List ℚ :=
  if entries.isEmpty then List.replicate n 0
  else
    let vecs := entries.map (fun e =>
      (reindexFillZero n e.scores).map
        (fun x => methodWeight weights methods e.method * x))
    let weighted := vecs.foldr (fun v acc => List.zipWith (· + ·) v acc)
      (List.replicate n 0)
    let total := (entries.map (fun e => methodWeight weights methods e.method)).sum
    let final := if 0 < total then weighted.map (fun x => x / total) else weighted
    final.map (fun x => min (max x 0) 1)

/-- Source function `ensemble_anomaly_detection(df, methods, weights)`
(lines 173–267) with its default arguments; the multivariate model inside
is the source's never-fitted `IsolationForest`. -/
def ensemble_anomaly_detection (df : DataFrame)
    (methods : List String := ["zscore", "iqr", "isolation_forest"])
    (weights : List (String × ℚ) :=
      [("zscore", 3/10), ("iqr", 3/10), ("isolation_forest", 2/5)]) :
    Except String (List ℚ) :=
  match colEntries df.cols methods with
  | Except.error e => Except.error e
  | Except.ok e1 =>
    Except.ok (combineEntries df.n
      (e1 ++ ifEntries df methods ++ tsEntries df) methods weights)

/-- Anomaly selection of `analyze_anomalies` (lines 303–305):
`df[anomaly_scores >= threshold]` keeps the records whose score is
present and at least the threshold (a NaN score compares false), and
`anomaly_count` is their number. -/
def anomalyCount (scores : List (Option ℚ)) (tau : ℚ) : ℕ :=
  scores.countP (fun o => match o with
    | some sc => decide (tau ≤ sc)
    | none => false)

/-- Source function `analyze_anomalies(df, method, threshold)`
(lines 270–325), restricted to the fields the claims are about (the
anomaly count; the summary statistics and report payload carry no further
logic).  There is no validation of `method` or `threshold`: an
unrecognised method string falls through to the ensemble (line 300
`else:  # ensemble`), and `threshold` is used as-is. -/
def analyze_anomalies (df : DataFrame) (method : String) (tau : ℚ) :
    Except String ℕ := do
  if df.cols.isEmpty then
    Except.error "ValueError: No numeric columns found in data"
  else
    let scores ←
      (if method = "zscore" then
        Except.ok (detect_zscore_anomalies (df.cols.headD ("", [])).2 3)
      else if method = "iqr" then
        detect_iqr_anomalies (df.cols.headD ("", [])).2 (3/2)
      else if method = "isolation_forest" then
        detect_isolation_forest_anomalies (df.cols.map Prod.snd) df.n
          unfittedDecisionFunction
      else
        (ensemble_anomaly_detection df).map (List.map some))
    pure (anomalyCount scores tau)


/-- The IQR detector raises on every input: the scalar `out` argument of
`np.maximum` is rejected before any score is produced. -/
theorem detect_iqr_raises (series : List (Option ℚ)) (k : ℚ) :
    detect_iqr_anomalies series k
      = Except.error "TypeError: return arrays must be of ArrayType" := rfl

/-- The multivariate detector never returns scores as called by the
source: whatever the data, it either rejects the input or hits the
`NotFittedError` of the never-fitted model. -/
theorem detect_IF_unfitted_errors (cols : List (List (Option ℚ))) (n : ℕ) :
    ∃ e, detect_isolation_forest_anomalies cols n unfittedDecisionFunction
      = Except.error e := by
  unfold detect_isolation_forest_anomalies
  by_cases h1 : cols.isEmpty
  · exact ⟨"ValueError: No numeric columns found in data", by simp [h1]⟩
  · by_cases h2 : ((fittedRows cols n).map Prod.snd).isEmpty
    · exact ⟨"ValueError: Found array with 0 sample(s)", by simp [h1, h2]⟩
    · exact ⟨"NotFittedError: This IsolationForest instance is not fitted yet.",
        by simp [h1, h2, unfittedDecisionFunction, Bind.bind, Except.bind]⟩

/-- In the ensemble, the isolation-forest block always contributes
nothing: its exception is caught and swallowed. -/
theorem ifEntries_eq_nil (df : DataFrame) (methods : List String) :
    ifEntries df methods = [] := by
  unfold ifEntries
  split
  · obtain ⟨e, he⟩ :=
      detect_IF_unfitted_errors (df.cols.map Prod.snd) df.n
    rw [he]
  · rfl

def df10 : DataFrame :=
  ⟨10, [("stake", [some 0, some 1, some 2, some 3, some 4,
                   some 5, some 6, some 7, some 8, some 9])]⟩

/-- C3: the claim says a detector that cannot execute returns zeros or
absences, never raises, and degradation never aborts the ensemble run.
In fact `detect_iqr_anomalies` raises `TypeError` on every series
(`np.maximum` given the scalar `0` as its `out` argument), the call at
line 214 is not guarded by any `try/except`, and the whole ensemble run
aborts — here evaluated on a well-formed 10-record single-column frame
with the default method set. -/
theorem C3_iqr_aborts_ensemble :
    ensemble_anomaly_detection df10 ["zscore", "iqr", "isolation_forest"]
        [("zscore", 3/10), ("iqr", 3/10), ("isolation_forest", 2/5)]
      = Except.error "TypeError: return arrays must be of ArrayType" := rfl

/-- C8: for a fixed score vector, raising the selection threshold never
increases the anomaly count `len(df[anomaly_scores >= threshold])`. -/
theorem C8_threshold_monotone (scores : List (Option ℚ)) (t1 t2 : ℚ)
    (h : t1 ≤ t2) : anomalyCount scores t2 ≤ anomalyCount scores t1 := by
  unfold anomalyCount
  apply List.countP_mono_left
  intro o _ ho
  match o with
  | some sc =>
    simp only [decide_eq_true_eq] at ho ⊢
    exact le_trans h ho
  | none => simp at ho

theorem C8_witness :
    (0:ℚ) ≤ 1/2
    ∧ anomalyCount [some 0, some 1, none] (1/2)
        ≤ anomalyCount [some 0, some 1, none] 0 :=
  ⟨by norm_num,
   C8_threshold_monotone [some 0, some 1, none] 0 (1/2) (by norm_num)⟩

def dfSmall : DataFrame :=
  ⟨5, [("odds", [some 1, some 1, some 1, some 1, some 1])]⟩

/-- C9: the claim says an unknown DetectorKind, a threshold outside
`[0,1]`, a negative weight or a non-positive window raises a fatal
`ConfigurationError` before any detector executes.  In fact
`analyze_anomalies` validates nothing: with the unknown method string
`"not-a-detector-kind"` and the out-of-range threshold `-1` it silently
falls through to the ensemble and reports all five records as anomalies. -/
theorem C9_counterexample :
    analyze_anomalies dfSmall "not-a-detector-kind" (-1) = Except.ok 5
    ∧ ¬((0:ℚ) ≤ -1) := by
  constructor
  · have hcol : colEntries dfSmall.cols ["zscore", "iqr", "isolation_forest"]
        = Except.ok [] := rfl
    have hts : tsEntries dfSmall = [] := rfl
    have hens : ensemble_anomaly_detection dfSmall = Except.ok (List.replicate 5 0) := by
      unfold ensemble_anomaly_detection
      rw [hcol]
      show Except.ok _ = _
      rw [ifEntries_eq_nil, hts]
      rfl
    unfold analyze_anomalies
    rw [show dfSmall.cols.isEmpty = false from rfl]
    simp only [Bool.false_eq_true, if_false, reduceIte, hens]
    show Except.ok (anomalyCount (List.replicate 5 (some 0)) (-1)) = Except.ok 5
    norm_num [anomalyCount, List.countP, List.countP.go, List.replicate]
  · norm_num

/-- C9 (amended): the engine performs no configuration validation at all:
`analyze_anomalies` routes any unrecognised method string straight to the
default ensemble — whatever the threshold, in range or not — and the only
pre-execution rejection anywhere is the numeric-columns `ValueError`
(plus argparse's method `choices` at the CLI). -/
theorem C9_amended (df : DataFrame) (method : String) (tau : ℚ)
    (h1 : method ≠ "zscore") (h2 : method ≠ "iqr")
    (h3 : method ≠ "isolation_forest") :
    analyze_anomalies df method tau = analyze_anomalies df "ensemble" tau := by
  unfold analyze_anomalies
  rw [if_neg h1, if_neg h2, if_neg h3,
    if_neg (show ¬("ensemble" = "zscore") by decide),
    if_neg (show ¬("ensemble" = "iqr") by decide),
    if_neg (show ¬("ensemble" = "isolation_forest") by decide)]

theorem C9_amended_witness :
    analyze_anomalies dfSmall "mystery" (1/2)
      = analyze_anomalies dfSmall "ensemble" (1/2) :=
  C9_amended dfSmall "mystery" (1/2) (by decide) (by decide) (by decide)

theorem colEntries_all_short (cols : List (String × List (Option ℚ)))
    (methods : List String) (h : ∀ c ∈ cols, (dropna c.2).length < 10) :
    colEntries cols methods = Except.ok [] := by
  induction cols with
  | nil => rfl
  | cons c rest ih =>
    have hc : (dropna c.2).length < 10 := h c (List.mem_cons_self c rest)
    unfold colEntries
    rw [if_pos hc]
    exact ih (fun a ha => h a (List.mem_cons_of_mem c ha))

theorem dropna_length_countP (col : List (Option ℚ)) :
    (dropna col).length = col.countP Option.isSome := by
  have key : ∀ (k : ℕ),
      ((List.enumFrom k col).filterMap
        (fun p => p.2.map (fun x => (p.1, x)))).length
        = col.countP Option.isSome := by
    induction col with
    | nil => intro k; rfl
    | cons v rest ih =>
      intro k
      cases v with
      | none => simp [List.enumFrom, List.countP_cons, ih (k + 1)]
      | some x => simp [List.enumFrom, List.countP_cons, ih (k + 1)]
  exact key 0

theorem rangeMap_getD (l : List (Option ℚ)) :
    (List.range l.length).map (fun i => (l[i]?).getD none) = l := by
  apply List.ext_getElem
  · simp
  · intro i h1 h2
    simp only [List.getElem_map, List.getElem_range]
    rw [List.getElem?_eq_getElem h2]
    rfl

theorem sortPermByKey_perm (key : List (Option ℚ)) (n : ℕ) :
    (sortPermByKey key n).Perm (List.range n) := by
  unfold sortPermByKey
  have h1 := List.perm_insertionSort (fun a b => timeKeyLe a.2 b.2 = true)
    ((List.range n).map (fun i => (i, (key[i]?).getD none)))
  have h2 := h1.map Prod.fst
  simpa [Function.comp_def] using h2

theorem permuted_dropna_length (col : List (Option ℚ)) (perm : List ℕ) (n : ℕ)
    (hp : perm.Perm (List.range n)) (hl : col.length = n) :
    (dropna (perm.map (fun i => (col[i]?).getD none))).length
      = (dropna col).length := by
  rw [dropna_length_countP, dropna_length_countP]
  have h1 : (perm.map (fun i => (col[i]?).getD none)).Perm
      ((List.range n).map (fun i => (col[i]?).getD none)) := hp.map _
  rw [h1.countP_eq]
  conv_rhs => rw [← rangeMap_getD col]
  rw [hl]

theorem tsEntries_eq_nil_of_short (df : DataFrame) (hwf : df.wf)
    (h : ∀ c ∈ df.cols, (dropna c.2).length < 10) :
    tsEntries df = [] := by
  unfold tsEntries
  dsimp only
  split
  · apply List.filterMap_eq_nil_iff.mpr
    intro c hc
    have hmem : c ∈ df.cols := List.take_subset 3 df.cols hc
    unfold tsColEntry
    rw [if_neg]
    intro hge
    have hc2 : (dropna c.2).length < 10 := h c hmem
    have hlen : (dropna ((sortPermByKey
        ((df.cols.filter (fun d => isTimeCol d.1)).headD ("", [])).2 df.n).map
          (fun i => ((c.2[i]?).getD none)))).length = (dropna c.2).length :=
      permuted_dropna_length c.2 _ df.n (sortPermByKey_perm _ df.n) (hwf c hmem)
    omega
  · rfl

/-- C10: every numeric column with fewer than 10 present values is
silently skipped by the per-feature z-score/IQR loop, and after sorting
the temporal loop's `len(series) >= 10` guard likewise rejects every
column, so a dataset whose columns all have fewer than 10 present values
(with the multivariate detector, as always, contributing nothing) yields
the all-zero combined score vector with no error. -/
theorem C10_short_columns_zero (df : DataFrame) (methods : List String)
    (weights : List (String × ℚ)) (hwf : df.wf)
    (h : ∀ c ∈ df.cols, (dropna c.2).length < 10) :
    ensemble_anomaly_detection df methods weights
      = Except.ok (List.replicate df.n 0) := by
  unfold ensemble_anomaly_detection
  rw [colEntries_all_short df.cols methods h]
  show Except.ok _ = _
  rw [ifEntries_eq_nil, tsEntries_eq_nil_of_short df hwf h]
  rfl

theorem C10_witness :
    ensemble_anomaly_detection dfSmall ["zscore", "iqr", "isolation_forest"]
        [("zscore", 3/10), ("iqr", 3/10), ("isolation_forest", 2/5)]
      = Except.ok (List.replicate 5 0) :=
  C10_short_columns_zero dfSmall _ _
    (by show ∀ c ∈ dfSmall.cols, c.2.length = dfSmall.n
        decide)
    (by decide)

def colA : List (Option ℚ) :=
  [some 1, some (-1), some 2, some (-2), some 0, some 0,
   some 0, some 0, some 0, some 0, some 0]

def colB : List (Option ℚ) :=
  [none, some 5, some 5, some 5, some 5, some 5,
   some 5, some 5, some 5, some 5, some 5]

def df11 : DataFrame := ⟨11, [("a", colA), ("b", colB)]⟩

theorem absq_two : |(2:ℚ)| = 2 := abs_of_nonneg (by norm_num)

theorem zscoreEntryScores_colA :
    zscoreEntryScores (dropna colA)
      = [(0, (1:ℚ)/3), (1, 1/3), (2, 2/3), (3, 2/3), (4, 0), (5, 0),
         (6, 0), (7, 0), (8, 0), (9, 0), (10, 0)] := by
  norm_num [zscoreEntryScores, detect_zscore_anomalies, dropna, colA,
    List.enum, List.enumFrom, List.filterMap_cons, List.filterMap_nil,
    seriesMeanOpt, seriesStdOpt, seriesMean, sampleStd, ratSqrt_one,
    min_eq_left, abs_neg, abs_one, absq_two]

theorem zscoreEntryScores_colB :
    zscoreEntryScores (dropna colB)
      = [(1, (0:ℚ)), (2, 0), (3, 0), (4, 0), (5, 0),
         (6, 0), (7, 0), (8, 0), (9, 0), (10, 0)] := by
  norm_num [zscoreEntryScores, detect_zscore_anomalies, dropna, colB,
    List.enum, List.enumFrom, List.filterMap_cons, List.filterMap_nil,
    seriesMeanOpt, seriesStdOpt, seriesMean, sampleStd, ratSqrt_zero]

theorem colEntries_df11 :
    colEntries df11.cols ["zscore"]
      = Except.ok [⟨"zscore", zscoreEntryScores (dropna colA)⟩,
                   ⟨"zscore", zscoreEntryScores (dropna colB)⟩] := rfl

theorem reindex_colA_scores :
    reindexFillZero 11 [(0, (1:ℚ)/3), (1, 1/3), (2, 2/3), (3, 2/3), (4, 0),
        (5, 0), (6, 0), (7, 0), (8, 0), (9, 0), (10, 0)]
      = [1/3, 1/3, 2/3, 2/3, 0, 0, 0, 0, 0, 0, 0] := rfl

theorem reindex_colB_scores :
    reindexFillZero 11 [(1, (0:ℚ)), (2, 0), (3, 0), (4, 0), (5, 0),
        (6, 0), (7, 0), (8, 0), (9, 0), (10, 0)]
      = [0, 0, 0, 0, 0, 0, 0, 0, 0, 0, 0] := rfl

set_option maxHeartbeats 1000000 in
theorem ensemble_df11_eval :
    ensemble_anomaly_detection df11 ["zscore"]
        [("zscore", 3/10), ("iqr", 3/10), ("isolation_forest", 2/5)]
      = Except.ok [1/6, 1/6, 1/3, 1/3, 0, 0, 0, 0, 0, 0, 0] := by
  unfold ensemble_anomaly_detection
  rw [colEntries_df11]
  show Except.ok _ = _
  rw [ifEntries_eq_nil]
  rw [show tsEntries df11 = [] from rfl]
  show Except.ok (combineEntries 11
    [⟨"zscore", zscoreEntryScores (dropna colA)⟩,
     ⟨"zscore", zscoreEntryScores (dropna colB)⟩] ["zscore"]
    [("zscore", 3/10), ("iqr", 3/10), ("isolation_forest", 2/5)]) = _
  rw [zscoreEntryScores_colA, zscoreEntryScores_colB]
  unfold combineEntries
  norm_num [reindex_colA_scores, reindex_colB_scores, methodWeight,
    min_eq_left, max_eq_left, List.zipWith]

theorem tsEntries_eq_nil_of_no_time (df : DataFrame)
    (ht : ∀ c ∈ df.cols, isTimeCol c.1 = false) : tsEntries df = [] := by
  unfold tsEntries
  dsimp only
  rw [if_neg]
  intro hcon
  rcases hcon with ⟨h1, h2⟩
  apply h1
  apply List.filter_eq_nil_iff.mpr
  intro c hc
  rw [ht c hc]
  simp

theorem C4_counterexample :
    detect_isolation_forest_anomalies [[some 1, some 2, none]] 3
        unfittedDecisionFunction
      = Except.error
        "NotFittedError: This IsolationForest instance is not fitted yet." := rfl

theorem lookup_eq_none_of_not_mem (l : List (ℕ × ℚ)) (k : ℕ)
    (h : k ∉ l.map Prod.fst) : l.lookup k = none := by
  induction l with
  | nil => rfl
  | cons p rest ih =>
    simp only [List.map_cons, List.mem_cons] at h
    push_neg at h
    unfold List.lookup
    rw [show (k == p.1) = false from beq_eq_false_iff_ne.mpr h.1]
    exact ih h.2

/-- C4 (amended): as called by the source the multivariate detector
always raises `NotFittedError` (for any frame with a numeric column and
at least one fully present row) and so never yields a ScoreVector; and in
the result-construction code that would run after a successful model
call, a record excluded from fitting receives the present score `0.0` —
not an absence. -/
theorem C4_amended :
    (∀ (cols : List (List (Option ℚ))) (n : ℕ),
      cols.isEmpty = false →
      ((fittedRows cols n).map Prod.snd).isEmpty = false →
      detect_isolation_forest_anomalies cols n unfittedDecisionFunction
        = Except.error
          "NotFittedError: This IsolationForest instance is not fitted yet.")
    ∧ (∀ (cols : List (List (Option ℚ))) (n : ℕ)
        (decision : List (List ℚ) → Except String (List ℚ))
        (res : List (Option ℚ)) (i : ℕ),
      detect_isolation_forest_anomalies cols n decision = Except.ok res →
      i < n →
      i ∉ (fittedRows cols n).map Prod.fst →
      res[i]? = some (some 0)) := by
  constructor
  · intro cols n h1 h2
    simp [detect_isolation_forest_anomalies, h1, h2,
      unfittedDecisionFunction, Bind.bind, Except.bind]
  · intro cols n decision res i hok hi hnot
    unfold detect_isolation_forest_anomalies at hok
    by_cases h1 : cols.isEmpty
    · simp [h1] at hok
    · by_cases h2 : ((fittedRows cols n).map Prod.snd).isEmpty
      · simp [h1, h2] at hok
      · simp only [h1, h2, Bool.false_eq_true, if_false, reduceIte] at hok
        cases hdec : decision
            (standardScalerFitTransform ((fittedRows cols n).map Prod.snd)) with
        | error e0 =>
          rw [hdec] at hok
          simp [Bind.bind, Except.bind] at hok
        | ok scores =>
          rw [hdec] at hok
          simp only [Bind.bind, Except.bind, pure, Except.pure] at hok
          injection hok with hres
          subst hres
          rw [List.getElem?_map, List.getElem?_range hi]
          have hzip : (((fittedRows cols n).map Prod.fst).zip
              (if 0 < scores.foldr max (scores.headD 0)
                    - scores.foldr min (scores.headD 0)
                then scores.map (fun sc => 1 - (sc - scores.foldr min (scores.headD 0))
                  / (scores.foldr max (scores.headD 0)
                      - scores.foldr min (scores.headD 0)))
                else scores.map (fun _ => 0))).lookup i = none := by
            apply lookup_eq_none_of_not_mem
            intro hmem
            apply hnot
            simp only [List.mem_map] at hmem
            obtain ⟨p, hp, hpi⟩ := hmem
            have := List.of_mem_zip hp
            rw [← hpi]
            exact this.1
          rw [Option.map_some']
          rw [hzip]
          rfl

theorem detect_IF_okModel_eval :
    detect_isolation_forest_anomalies [[some 1, none]] 2
        (fun _ => Except.ok []) = Except.ok [some 0, some 0] := by
  unfold detect_isolation_forest_anomalies
  rw [show ([[some 1, none]] : List (List (Option ℚ))).isEmpty = false from rfl,
    show fittedRows [[some 1, none]] 2 = [(0, [1])] from rfl]
  norm_num [Bind.bind, Except.bind, pure, Except.pure,
    List.range_succ, List.lookup]

theorem C4_witness :
    detect_isolation_forest_anomalies [[some 1, some 2]] 2
        unfittedDecisionFunction
      = Except.error
        "NotFittedError: This IsolationForest instance is not fitted yet."
    ∧ ([some 0, some 0] : List (Option ℚ))[1]? = some (some 0) :=
  ⟨C4_amended.1 [[some 1, some 2]] 2 rfl rfl,
   C4_amended.2 [[some 1, none]] 2 (fun _ => Except.ok []) [some 0, some 0] 1
     detect_IF_okModel_eval (by norm_num) (by decide)⟩

/-- C7 counterexample: the claim says no ScoreVector value is ever NaN.
On a series with a single present value — reachable through
`analyze_anomalies` with `method='zscore'`, which passes the raw primary
column unguarded — the z-score detector's standard deviation is NaN, the
`std == 0` guard is False, and the ScoreVector carries a NaN (modelled
`none`) at record 0 even though record 0's input value is present
(`some 5`): no `[0,1]` value exists for a covered, present record. -/
theorem C7_counterexample :
    (detect_zscore_anomalies [some 5] 3)[0]? = some none
    ∧ (([some (5:ℚ)] : List (Option ℚ))[0]?) = some (some 5) := ⟨rfl, rfl⟩

/-- C7 (amended): every value the score vectors actually carry lies in
`[0,1]` — the z-score detector's non-NaN scores under any positive
threshold (the engine always uses the default 3.0), the temporal
detector's scores, and the combined output of any successful ensemble run
(the IQR and multivariate detectors raise instead of producing vectors).
The claim's "never NaN" clause fails: the z-score detector emits NaN
scores for present records when fewer than two values are present (see
the counterexample). -/
theorem C7_scores_bounded :
    (∀ (series : List (Option ℚ)) (T : ℚ), 0 < T →
      ∀ o ∈ detect_zscore_anomalies series T, ∀ v, o = some v → 0 ≤ v ∧ v ≤ 1)
    ∧ (∀ (s : List ℚ) (w : ℕ),
      ∀ x ∈ detect_time_series_anomalies s w, 0 ≤ x ∧ x ≤ 1)
    ∧ (∀ (df : DataFrame) (methods : List String)
        (weights : List (String × ℚ)) (v : List ℚ),
      ensemble_anomaly_detection df methods weights = Except.ok v →
      ∀ x ∈ v, 0 ≤ x ∧ x ≤ 1) := by
  refine ⟨?_, ?_, ?_⟩
  · intro series T hT o ho v hov
    unfold detect_zscore_anomalies at ho
    dsimp only at ho
    by_cases hs : seriesStdOpt ((dropna series).map Prod.snd) = some 0
    · rw [if_pos hs] at ho
      simp only [List.mem_map] at ho
      obtain ⟨cell, _, rfl⟩ := ho
      injection hov with h2
      subst h2
      norm_num
    · rw [if_neg hs] at ho
      simp only [List.mem_map] at ho
      obtain ⟨cell, _, rfl⟩ := ho
      cases cell with
      | none => simp at hov
      | some x =>
        simp only [Option.some_bind] at hov
        cases hm : seriesMeanOpt ((dropna series).map Prod.snd) with
        | none =>
          rw [hm] at hov
          simp at hov
        | some m =>
          rw [hm] at hov
          simp only [Option.some_bind] at hov
          cases hs2 : seriesStdOpt ((dropna series).map Prod.snd) with
          | none =>
            rw [hs2] at hov
            simp at hov
          | some sd =>
            rw [hs2] at hov
            rw [Option.map_some'] at hov
            injection hov with h2
            subst h2
            constructor
            · exact le_min (div_nonneg (abs_nonneg _) hT.le) (by norm_num)
            · exact min_le_right _ _
  · intro s w x hx
    unfold detect_time_series_anomalies at hx
    simp only [List.mem_map] at hx
    obtain ⟨i, _, rfl⟩ := hx
    constructor
    · exact le_min (div_nonneg (abs_nonneg _) (by norm_num)) (by norm_num)
    · exact min_le_right _ _
  · intro df methods weights v hok x hx
    unfold ensemble_anomaly_detection at hok
    cases hce : colEntries df.cols methods with
    | error e =>
      rw [hce] at hok
      simp at hok
    | ok e1 =>
      rw [hce] at hok
      dsimp only at hok
      injection hok with h
      subst h
      unfold combineEntries at hx
      by_cases hb : (e1 ++ ifEntries df methods ++ tsEntries df).isEmpty = true
      · rw [if_pos hb] at hx
        rw [List.eq_of_mem_replicate hx]
        norm_num
      · rw [if_neg hb] at hx
        dsimp only at hx
        simp only [List.mem_map] at hx
        obtain ⟨y, _, rfl⟩ := hx
        constructor
        · exact le_min (le_max_right _ _) (by norm_num)
        · exact min_le_right _ _

theorem detect_zscore_pair_eval :
    detect_zscore_anomalies [some 5, some 5] 3 = [some 0, some 0] := by
  norm_num [detect_zscore_anomalies, dropna, List.enum, List.enumFrom,
    List.filterMap_cons, List.filterMap_nil, seriesMeanOpt, seriesStdOpt,
    seriesMean, sampleStd, ratSqrt_zero]

theorem C7_witness :
    ((0:ℚ) ≤ 0 ∧ (0:ℚ) ≤ 1)
    ∧ ((0:ℚ) ≤ 0 ∧ (0:ℚ) ≤ 1)
    ∧ ((0:ℚ) ≤ 1/6 ∧ (1:ℚ)/6 ≤ 1) := by
  refine ⟨?_, ?_, ?_⟩
  · exact C7_scores_bounded.1 [some 5, some 5] 3 (by norm_num) (some 0)
      (by rw [detect_zscore_pair_eval]; exact List.mem_cons_self _ _) 0 rfl
  · have h2 : (0:ℚ) ∈ detect_time_series_anomalies [0, 0] 3 := by
      norm_num [detect_time_series_anomalies, rollingStdAt, rollingMeanAt,
        windowVals, rollingWindowIdx, seriesMean, sampleStd, ratSqrt_zero,
        List.range_succ, List.range']
    exact C7_scores_bounded.2.1 [0, 0] 3 0 h2
  · exact C7_scores_bounded.2.2 df11 ["zscore"]
      [("zscore", 3/10), ("iqr", 3/10), ("isolation_forest", 2/5)]
      [1/6, 1/6, 1/3, 1/3, 0, 0, 0, 0, 0, 0, 0] ensemble_df11_eval
      (1/6) (List.mem_cons_self _ _)
